import Mathlib

/-!
# CIS global load balancer resource: lifecycle handlers

A shallow embedding of `ibm/resource_ibm_cis_global_load_balancer.go`.

* The Terraform field store (`schema.ResourceData`) is a record: the id, one typed
  field per schema attribute, and the list of attribute names for which
  `HasChange` answers true.
* The remote side (`meta`) is a record of oracles.  Every oracle receives the list
  of remote calls issued so far, so the remote side may be arbitrarily stateful.
* Every handler takes the field store, the session and the call history, and
  returns its Go return value, the field store afterwards and the call history
  afterwards.
* The identifier conversion helpers live in another file of the package; the
  handlers take them as a parameter (`Helpers`).
-/

namespace CisGlb

/-! ## Data model -/

/-- A non-nil Go `error`; `Error` is the text returned by its `Error()` method. -/
structure GoError where
  Error : String
deriving DecidableEq, Repr

/-- The `v1.Glb` object returned by the CIS client. `CreatedOn` and `ModifiedOn` are
the server-assigned timestamps; the handlers read the other fields. -/
structure Glb where
  Id : String
  CreatedOn : String
  ModifiedOn : String
  Desc : String
  Name : String
  Ttl : Int
  FallbackPool : String
  DefaultPools : List String
  Proxied : Bool
  Enabled : Bool
  SessionAffinity : String
deriving DecidableEq, Repr

/-- The `v1.GlbBody` request payload; `{}` is the Go zero value `v1.GlbBody{}`. -/
structure GlbBody where
  Desc : String := ""
  Name : String := ""
  Ttl : Int := 0
  FallbackPool : String := ""
  DefaultPools : List String := []
  Proxied : Bool := false
  Enabled : Bool := false
  SessionAffinity : String := ""
deriving DecidableEq, Repr

/-- One remote call, with its arguments in the order of the Go call. -/
inductive Call where
  | CreateGlb (cisId zoneId : String) (body : GlbBody)
  | GetGlb (cisId zoneId glbId : String)
  | UpdateGlb (cisId zoneId glbId : String) (body : GlbBody)
  | DeleteGlb (cisId zoneId glbId : String)
  | rcInstanceExists (cisId kind : String)
deriving DecidableEq, Repr

/-- Whether a call is the remote `UpdateGlb`. -/
def Call.isUpdateGlb : Call → Bool
  | .UpdateGlb _ _ _ _ => true
  | _ => false

/-- Whether a call is the remote `DeleteGlb`. -/
def Call.isDeleteGlb : Call → Bool
  | .DeleteGlb _ _ _ => true
  | _ => false

/-- Whether a call is a remote write (`CreateGlb`, `UpdateGlb` or `DeleteGlb`). -/
def Call.isWrite : Call → Bool
  | .CreateGlb _ _ _ => true
  | .UpdateGlb _ _ _ _ => true
  | .DeleteGlb _ _ _ => true
  | _ => false

/-- The session `meta`. Each oracle is given the remote calls issued before it.
A pointer result is `none` for Go `nil`; an error result is `none` for Go `nil`. -/
structure ClientSession where
  CisAPI : List Call → Option GoError
  CreateGlb : List Call → String → String → GlbBody → Option Glb × Option GoError
  GetGlb : List Call → String → String → String → Option Glb × Option GoError
  UpdateGlb : List Call → String → String → String → GlbBody → Option Glb × Option GoError
  DeleteGlb : List Call → String → String → String → Option GoError
  rcInstanceExists : List Call → String → String → Bool × Option GoError

/-- The package helpers the handlers call; their bodies are in another file of the
package. Tuples follow the Go result lists. `schemaSetList` is what
`(*schema.Set).List()` yields for a set built from the given elements. -/
structure Helpers where
  convertTftoCisTwoVar : String → String × String × Option GoError
  convertTfToCisTwoVarSlice : List String → List String × String × Option GoError
  convertCisToTfTwoVar : String → String → String
  convertCisToTfTwoVarSlice : List String → String → List String
  convertCisToTfThreeVar : String → String → String → String
  convertTfToCisThreeVar : String → String × String × String × Option GoError
  schemaSetList : List String → List String

/-- The field store `d`. Each attribute holds what `d.Get` returns for it (the zero
value when the attribute is absent); `changed` lists the attributes for which
`d.HasChange` is true. -/
structure ResourceData where
  Id : String
  cis_id : String
  domain_id : String
  name : String
  fallback_pool_id : String
  default_pool_ids : List String
  description : String
  ttl : Int
  proxied : Bool
  session_affinity : String
  enabled : Bool
  created_on : String
  modified_on : String
  changed : List String
deriving DecidableEq, Repr

/-- The call `d.SetId(v)`. -/
def ResourceData.SetId (d : ResourceData) (v : String) : ResourceData :=
  { d with Id := v }

/-- The call `d.HasChange(key)`. -/
def ResourceData.HasChange (d : ResourceData) (key : String) : Bool :=
  decide (key ∈ d.changed)

/-- The Go return value of a handler: `nil`, an error, or a run-time panic
(dereference of a nil pointer). -/
inductive Ret where
  | nil
  | err (e : GoError)
  | panic
deriving DecidableEq, Repr

/-- What a handler leaves behind: return value, field store, calls issued so far. -/
structure Outcome where
  ret : Ret
  d : ResourceData
  calls : List Call
deriving DecidableEq, Repr

/-! ## `strings.Contains` -/

/-- Whether the second list starts with the first. -/
def startsWithChars : List Char → List Char → Bool
  | [], _ => true
  | _ :: _, [] => false
  | p :: ps, c :: cs => p == c && startsWithChars ps cs

/-- Whether the first list occurs as a contiguous block of the second. -/
def containsChars (sub : List Char) : List Char → Bool
  | [] => startsWithChars sub []
  | c :: cs => startsWithChars sub (c :: cs) || containsChars sub cs

/-- Go `strings.Contains(s, substr)`. -/
def stringsContains (s substr : String) : Bool :=
  containsChars substr.toList s.toList

/-! ## Handlers -/

/-- The not-found test on the error text at the head of `checkCisGlbDeleted`. -/
def notFoundText (errCheck : GoError) : Bool :=
  stringsContains errCheck.Error "Object not found" ||
  stringsContains errCheck.Error "status code: 404" ||
  stringsContains errCheck.Error "Invalid zone identifier"

/-- The function `checkCisGlbDeleted(d, meta, errCheck, glb)`: the verdict and the calls issued
so far. -/
def checkCisGlbDeleted (H : Helpers) (d : ResourceData) (m : ClientSession)
    (errCheck : GoError) (_glb : Option Glb) (h : List Call) : Bool × List Call :=
  if notFoundText errCheck then
    (true, h)
  else
    match H.convertTfToCisThreeVar d.Id with
    | (_, _, cisId, _) =>
      let h1 := h ++ [Call.rcInstanceExists cisId "ibm_cis"]
      match m.rcInstanceExists h cisId "ibm_cis" with
      | (_, some _) => (false, h1)
      | (exists_, none) => if !exists_ then (true, h1) else (false, h1)

/-- The ten `d.Set` calls at the end of `resourceCISGlbRead`. -/
def setObserved (H : Helpers) (d : ResourceData) (glbObj : Glb) (zoneId cisId : String) :
    ResourceData :=
  { d with
    cis_id := cisId
    domain_id := H.convertCisToTfTwoVar zoneId cisId
    name := glbObj.Name
    default_pool_ids := H.schemaSetList (H.convertCisToTfTwoVarSlice glbObj.DefaultPools cisId)
    description := glbObj.Desc
    fallback_pool_id := H.convertCisToTfTwoVar glbObj.FallbackPool cisId
    ttl := glbObj.Ttl
    proxied := glbObj.Proxied
    enabled := glbObj.Enabled
    session_affinity := glbObj.SessionAffinity }

/-- The handler `resourceCISGlbRead(d, meta)`. -/
def resourceCISGlbRead (H : Helpers) (d : ResourceData) (m : ClientSession) (h : List Call) :
    Outcome :=
  match m.CisAPI h with
  | some err => ⟨.err err, d, h⟩
  | none =>
    match H.convertTfToCisThreeVar d.Id with
    | (_, _, _, some err) => ⟨.err err, d, h⟩
    | (glbId, zoneId, cisId, none) =>
      let h1 := h ++ [Call.GetGlb cisId zoneId glbId]
      match m.GetGlb h cisId zoneId glbId with
      | (glb, some err) =>
        match checkCisGlbDeleted H d m err glb h1 with
        | (true, h2) => ⟨.nil, d.SetId "", h2⟩
        | (false, h2) => ⟨.err err, d, h2⟩
      | (none, none) => ⟨.panic, d, h1⟩
      | (some glbObj, none) => ⟨.nil, setObserved H d glbObj zoneId cisId, h1⟩

/-- The `HasChange` disjunction guarding the remote update in `resourceCISGlbUpdate`. -/
def trackedChange (d : ResourceData) : Bool :=
  d.HasChange "name" || d.HasChange "default_pool_ids" || d.HasChange "fallback_pool_id" ||
  d.HasChange "proxied" || d.HasChange "session_affinity" || d.HasChange "description" ||
  d.HasChange "ttl" || d.HasChange "enabled"

/-- The payload `glbUpdate` built in `resourceCISGlbUpdate`. `d.GetOk(k)` reports a
value as present exactly when it is not the zero value of its type, so each
`GetOk` branch copies the value when it is non-zero and leaves the zero value
otherwise. -/
def updateBody (H : Helpers) (d : ResourceData) : GlbBody :=
  { Name := d.name
    DefaultPools := (H.convertTfToCisTwoVarSlice d.default_pool_ids).1
    FallbackPool := (H.convertTftoCisTwoVar d.fallback_pool_id).1
    Proxied := d.proxied
    SessionAffinity := d.session_affinity
    Desc := if d.description ≠ "" then d.description else ""
    Ttl := if d.ttl ≠ 0 then d.ttl else 0
    Enabled := if d.enabled ≠ false then d.enabled else false }

/-- The handler `resourceCISGlbUpdate(d, meta)`. -/
def resourceCISGlbUpdate (H : Helpers) (d : ResourceData) (m : ClientSession) (h : List Call) :
    Outcome :=
  match m.CisAPI h with
  | some err => ⟨.err err, d, h⟩
  | none =>
    match H.convertTfToCisThreeVar d.Id with
    | (_, _, _, some err) => ⟨.err err, d, h⟩
    | (glbId, zoneId, cisId, none) =>
      if trackedChange d then
        let glbUpdate := updateBody H d
        let h1 := h ++ [Call.UpdateGlb cisId zoneId glbId glbUpdate]
        match m.UpdateGlb h cisId zoneId glbId glbUpdate with
        | (_, some err) => ⟨.err err, d, h1⟩
        | (_, none) => resourceCISGlbRead H d m h1
      else
        resourceCISGlbRead H d m h

/-- The payload `glbNew` built in `resourceCISGlbCreate` (no `Enabled`). -/
def createBody (H : Helpers) (d : ResourceData) : GlbBody :=
  { Name := d.name
    DefaultPools := (H.convertTfToCisTwoVarSlice d.default_pool_ids).1
    FallbackPool := (H.convertTftoCisTwoVar d.fallback_pool_id).1
    Proxied := d.proxied
    SessionAffinity := d.session_affinity
    Desc := if d.description ≠ "" then d.description else ""
    Ttl := if d.ttl ≠ 0 then d.ttl else 0 }

/-- The handler `resourceCISGlbCreate(d, meta)`. -/
def resourceCISGlbCreate (H : Helpers) (d : ResourceData) (m : ClientSession) (h : List Call) :
    Outcome :=
  match m.CisAPI h with
  | some err => ⟨.err err, d, h⟩
  | none =>
    let cisId := d.cis_id
    match H.convertTftoCisTwoVar d.domain_id with
    | (_, _, some err) => ⟨.err err, d, h⟩
    | (zoneId, _, none) =>
      let glbNew := createBody H d
      let h1 := h ++ [Call.CreateGlb cisId zoneId glbNew]
      match m.CreateGlb h cisId zoneId glbNew with
      | (_, some err) => ⟨.err err, d, h1⟩
      | (none, none) => ⟨.panic, d, h1⟩
      | (some glbObj, none) =>
        resourceCISGlbUpdate H (d.SetId (H.convertCisToTfThreeVar glbObj.Id zoneId cisId)) m h1

/-- The two kinds of Go value that reach `reflect.DeepEqual` in this file: a `*v1.Glb`
(nil, or pointing to an object) and a `v1.Glb`. -/
inductive GoValue where
  | ptrGlb (p : Option Glb)
  | structGlb (v : Glb)
deriving DecidableEq, Repr

/-- Go `reflect.DeepEqual(x, y)` on these values: values of distinct types are never
deeply equal; two pointers are deeply equal when both are nil or their pointees
are deeply equal; two structs when their fields are. -/
def reflectDeepEqual : GoValue → GoValue → Bool
  | .ptrGlb none, .ptrGlb none => true
  | .ptrGlb (some a), .ptrGlb (some b) => decide (a = b)
  | .structGlb a, .structGlb b => decide (a = b)
  | _, _ => false

/-- The guard `reflect.DeepEqual(emptyGlb, glbObj)` of `resourceCISGlbDelete`:
`emptyGlb` is a `*v1.Glb` (from `new(v1.Glb)`) and `glbObj` a `v1.Glb` (from `*glb`). -/
def deepEqualEmptyGlb (emptyGlb : Glb) (glbObj : Glb) : Bool :=
  reflectDeepEqual (.ptrGlb (some emptyGlb)) (.structGlb glbObj)

/-- The value `new(v1.Glb)` points to: every field zero. -/
def zeroGlb : Glb :=
  ⟨"", "", "", "", "", 0, "", [], false, false, ""⟩

/-- The handler `resourceCISGlbDelete(d, meta)`. -/
def resourceCISGlbDelete (H : Helpers) (d : ResourceData) (m : ClientSession) (h : List Call) :
    Outcome :=
  match m.CisAPI h with
  | some err => ⟨.err err, d, h⟩
  | none =>
    match H.convertTfToCisThreeVar d.Id with
    | (glbId, zoneId, cisId, _) =>
      let emptyGlb := zeroGlb
      let h1 := h ++ [Call.GetGlb cisId zoneId glbId]
      match m.GetGlb h cisId zoneId glbId with
      | (glb, some err) =>
        match checkCisGlbDeleted H d m err glb h1 with
        | (true, h2) => ⟨.nil, d.SetId "", h2⟩
        | (false, h2) => ⟨.err err, d, h2⟩
      | (none, none) => ⟨.panic, d, h1⟩
      | (some glbObj, none) =>
        if !deepEqualEmptyGlb emptyGlb glbObj then
          let h2 := h1 ++ [Call.DeleteGlb cisId zoneId glbId]
          match m.DeleteGlb h1 cisId zoneId glbId with
          | some err => ⟨.err err, d, h2⟩
          | none => ⟨.nil, d.SetId "", h2⟩
        else
          ⟨.nil, d.SetId "", h1⟩

/-! ## A concrete codec and concrete sessions

The theorems below hold for every `Helpers`; the instance here is used to evaluate
the handlers on concrete inputs. -/

/-- Split a list of characters at every occurrence of the separator. -/
def splitChars (sep : Char) : List Char → List (List Char)
  | [] => [[]]
  | c :: cs =>
    if c = sep then [] :: splitChars sep cs
    else
      match splitChars sep cs with
      | [] => [[c]]
      | w :: ws => (c :: w) :: ws

/-- Modelled from the spec: the identifier codec `Decode(LocalIdentifier, arity)`, whose
body (`convertTfToCisThreeVar`, `convertTftoCisTwoVar`) is not in this file of the
package. It splits on the delimiter and fails when the number of components is
not the arity. -/
def specDecode (s : String) : List String :=
  (splitChars ':' s.toList).map String.mk

/-- Modelled from the spec: the error of `Decode` on a wrong number of components. -/
def malformedIdentifier : GoError :=
  ⟨"malformed identifier"⟩

/-- Modelled from the spec: `Decode` at arity 3, in the result order of
`convertTfToCisThreeVar`. -/
def specDecode3 (s : String) : String × String × String × Option GoError :=
  match specDecode s with
  | [a, b, c] => (a, b, c, none)
  | _ => ("", "", "", some malformedIdentifier)

/-- Modelled from the spec: `Decode` at arity 2, in the result order of
`convertTftoCisTwoVar`. -/
def specDecode2 (s : String) : String × String × Option GoError :=
  match specDecode s with
  | [a, b] => (a, b, none)
  | _ => ("", "", some malformedIdentifier)

/-- Modelled from the spec: `Encode(handle)`, joining the components with the
delimiter, for the helpers `convertCisToTfTwoVar` and `convertCisToTfThreeVar` whose
bodies are not in this file of the package. -/
def specHelpers : Helpers where
  convertTftoCisTwoVar := specDecode2
  convertTfToCisTwoVarSlice := fun xs => (xs.map fun x => (specDecode2 x).1, "", none)
  convertCisToTfTwoVar := fun a cis => a ++ ":" ++ cis
  convertCisToTfTwoVarSlice := fun xs cis => xs.map fun a => a ++ ":" ++ cis
  convertCisToTfThreeVar := fun a b cis => a ++ ":" ++ b ++ ":" ++ cis
  convertTfToCisThreeVar := specDecode3
  schemaSetList := fun xs => xs.dedup

/-- A field store bound to load balancer `g1` of zone `z1` in instance `c1`, with no
pending change. -/
def boundData : ResourceData :=
  { Id := "g1:z1:c1", cis_id := "c1", domain_id := "z1:c1", name := "lb",
    fallback_pool_id := "p1:c1", default_pool_ids := ["p1:c1"], description := "",
    ttl := 0, proxied := false, session_affinity := "none", enabled := true,
    created_on := "", modified_on := "", changed := [] }

/-- The load balancer object the concrete sessions answer with. -/
def sampleGlb : Glb :=
  { Id := "g1", CreatedOn := "2020-01-01", ModifiedOn := "2020-01-02", Desc := "d",
    Name := "lb", Ttl := 60, FallbackPool := "p1", DefaultPools := ["p1"],
    Proxied := false, Enabled := true, SessionAffinity := "none" }

/-- A session in which every remote call succeeds and returns `sampleGlb`. -/
def okSession : ClientSession where
  CisAPI := fun _ => none
  CreateGlb := fun _ _ _ _ => (some sampleGlb, none)
  GetGlb := fun _ _ _ _ => (some sampleGlb, none)
  UpdateGlb := fun _ _ _ _ _ => (some sampleGlb, none)
  DeleteGlb := fun _ _ _ _ => none
  rcInstanceExists := fun _ _ _ => (true, none)

/-- A session whose `GetGlb` fails with "Object not found" while the parent instance
still exists. -/
def notFoundSession : ClientSession :=
  { okSession with GetGlb := fun _ _ _ _ => (none, some ⟨"Object not found"⟩) }

/-- A session whose `GetGlb` fails with an unrelated error while the parent instance
still exists. -/
def transientSession : ClientSession :=
  { okSession with GetGlb := fun _ _ _ _ => (none, some ⟨"connection reset"⟩) }

/-- A session whose `GetGlb` fails with an unrelated error and whose parent instance
is gone. -/
def parentGoneSession : ClientSession :=
  { okSession with
    GetGlb := fun _ _ _ _ => (none, some ⟨"connection reset"⟩)
    rcInstanceExists := fun _ _ _ => (false, none) }

/-- A session whose `CreateGlb` fails. -/
def createFailSession : ClientSession :=
  { okSession with CreateGlb := fun _ _ _ _ => (none, some ⟨"create failed"⟩) }

/-- A session whose `DeleteGlb` fails. -/
def deleteFailSession : ClientSession :=
  { okSession with DeleteGlb := fun _ _ _ _ => some ⟨"delete failed"⟩ }

/-- A session whose `GetGlb` succeeds with an object all of whose fields are zero. -/
def zeroGlbSession : ClientSession :=
  { okSession with GetGlb := fun _ _ _ _ => (some zeroGlb, none) }

/-- A field store before creation: no id yet, and the configured attributes differ
from the (empty) prior state. -/
def newData : ResourceData :=
  { boundData with
    Id := ""
    changed := ["name", "default_pool_ids", "fallback_pool_id", "session_affinity", "enabled"] }

/-- A field store before creation in which no tracked attribute is reported as
changed. -/
def newDataUnchanged : ResourceData :=
  { boundData with Id := "" }

/-- A field store whose id has a single component. -/
def malformedData : ResourceData :=
  { boundData with Id := "abc" }

/-! ## Call histories -/

/-- The calls issued by `checkCisGlbDeleted`: none, or one existence check of the
parent instance. -/
theorem checkCisGlbDeleted_calls (H : Helpers) (d : ResourceData) (m : ClientSession)
    (e : GoError) (glb : Option Glb) (h : List Call) :
    (checkCisGlbDeleted H d m e glb h).2 = h ∨
    (checkCisGlbDeleted H d m e glb h).2 =
      h ++ [Call.rcInstanceExists (H.convertTfToCisThreeVar d.Id).2.2.1 "ibm_cis"] := by
  unfold checkCisGlbDeleted
  split
  · exact Or.inl rfl
  · right
    rcases hm : m.rcInstanceExists h (H.convertTfToCisThreeVar d.Id).2.2.1 "ibm_cis" with ⟨ex, oe⟩
    cases oe <;> cases ex <;> simp [hm]

/-- The calls issued by `checkCisGlbDeleted` are appended to the history and contain
no remote write. -/
theorem checkCisGlbDeleted_ext (H : Helpers) (d : ResourceData) (m : ClientSession)
    (e : GoError) (glb : Option Glb) (h : List Call) :
    ∃ ext, (checkCisGlbDeleted H d m e glb h).2 = h ++ ext ∧ ∀ c ∈ ext, c.isWrite = false := by
  rcases checkCisGlbDeleted_calls H d m e glb h with hc | hc
  · exact ⟨[], by simp [hc], by simp⟩
  · exact ⟨_, hc, by simp [Call.isWrite]⟩

/-- A call that is not a remote write is neither an `UpdateGlb` nor a `DeleteGlb`. -/
theorem Call.not_write (c : Call) (hc : c.isWrite = false) :
    c.isUpdateGlb = false ∧ c.isDeleteGlb = false := by
  cases c <;> simp_all [Call.isWrite, Call.isUpdateGlb, Call.isDeleteGlb]

/-- The calls issued by `resourceCISGlbRead` are appended to the history, contain no
remote write, and start with a `GetGlb` when there is any. -/
theorem resourceCISGlbRead_calls (H : Helpers) (d : ResourceData) (m : ClientSession)
    (h : List Call) :
    ∃ ext, (resourceCISGlbRead H d m h).calls = h ++ ext ∧ (∀ c ∈ ext, c.isWrite = false) ∧
      (ext = [] ∨ ∃ cisId zoneId glbId rest, ext = Call.GetGlb cisId zoneId glbId :: rest) := by
  unfold resourceCISGlbRead
  cases hapi : m.CisAPI h with
  | some err => exact ⟨[], by simp, by simp, Or.inl rfl⟩
  | none =>
    rcases hdec : H.convertTfToCisThreeVar d.Id with ⟨glbId, zoneId, cisId, oe⟩
    cases oe with
    | some err => exact ⟨[], by simp, by simp, Or.inl rfl⟩
    | none =>
      rcases hget : m.GetGlb h cisId zoneId glbId with ⟨glb, ge⟩
      cases ge with
      | some err =>
        obtain ⟨ext, hext, hw⟩ :=
          checkCisGlbDeleted_ext H d m err glb (h ++ [Call.GetGlb cisId zoneId glbId])
        refine ⟨Call.GetGlb cisId zoneId glbId :: ext, ?_, ?_, Or.inr ⟨_, _, _, _, rfl⟩⟩
        · rcases hchk : checkCisGlbDeleted H d m err glb (h ++ [Call.GetGlb cisId zoneId glbId])
            with ⟨b, h2⟩
          rw [hchk] at hext
          simp only at hext
          cases b <;> simp [hget, hchk, hext]
        · intro c hc
          rcases List.mem_cons.1 hc with rfl | hc
          · rfl
          · exact hw c hc
      | none =>
        refine ⟨[Call.GetGlb cisId zoneId glbId], ?_, by simp [Call.isWrite],
          Or.inr ⟨_, _, _, _, rfl⟩⟩
        cases glb <;> simp [hget]

/-- Without a changed tracked field `resourceCISGlbUpdate` does what
`resourceCISGlbRead` does. -/
theorem update_unchanged_is_read_aux (H : Helpers) (d : ResourceData) (m : ClientSession)
    (h : List Call) (hsame : trackedChange d = false) :
    resourceCISGlbUpdate H d m h = resourceCISGlbRead H d m h := by
  unfold resourceCISGlbUpdate
  cases hapi : m.CisAPI h with
  | some err => simp [resourceCISGlbRead, hapi]
  | none =>
    rcases hdec : H.convertTfToCisThreeVar d.Id with ⟨glbId, zoneId, cisId, oe⟩
    cases oe with
    | some err => simp [resourceCISGlbRead, hapi, hdec]
    | none => simp [hsame]

/-! ## Read and Delete on a load balancer that is gone -/

/-- C1: when the session is available, the id decodes, the remote `GetGlb` returns an
error and `checkCisGlbDeleted` answers true for it, `resourceCISGlbRead` returns nil
and the field store afterwards is the one before with the id set to the empty
string: no other field is written. -/
theorem read_deleted_clears_id (H : Helpers) (d : ResourceData) (m : ClientSession)
    (h : List Call) (glbId zoneId cisId : String) (glb : Option Glb) (e : GoError)
    (hapi : m.CisAPI h = none)
    (hdec : H.convertTfToCisThreeVar d.Id = (glbId, zoneId, cisId, none))
    (hget : m.GetGlb h cisId zoneId glbId = (glb, some e))
    (hchk : (checkCisGlbDeleted H d m e glb (h ++ [Call.GetGlb cisId zoneId glbId])).1 = true) :
    (resourceCISGlbRead H d m h).ret = Ret.nil ∧
    (resourceCISGlbRead H d m h).d = { d with Id := "" } := by
  rcases hc : checkCisGlbDeleted H d m e glb (h ++ [Call.GetGlb cisId zoneId glbId])
    with ⟨b, h2⟩
  rw [hc] at hchk
  simp only at hchk
  subst hchk
  simp [resourceCISGlbRead, hapi, hdec, hget, hc, ResourceData.SetId]

/-- C1 at a concrete input: `GetGlb` answers "Object not found". -/
theorem read_deleted_clears_id_witness :
    (resourceCISGlbRead specHelpers boundData notFoundSession []).ret = Ret.nil ∧
    (resourceCISGlbRead specHelpers boundData notFoundSession []).d =
      { boundData with Id := "" } :=
  read_deleted_clears_id specHelpers boundData notFoundSession [] "g1" "z1" "c1" none
    ⟨"Object not found"⟩ (by decide) (by decide) (by decide) (by decide)

/-- C2: when the session is available, the preliminary `GetGlb` of
`resourceCISGlbDelete` returns an error and `checkCisGlbDeleted` answers true for it,
`resourceCISGlbDelete` returns nil, only sets the id to the empty string, and none of
the calls it issues is the remote `DeleteGlb`. -/
theorem delete_absent_skips_remote_delete (H : Helpers) (d : ResourceData)
    (m : ClientSession) (h : List Call) (glbId zoneId cisId : String) (oe : Option GoError)
    (glb : Option Glb) (e : GoError)
    (hapi : m.CisAPI h = none)
    (hdec : H.convertTfToCisThreeVar d.Id = (glbId, zoneId, cisId, oe))
    (hget : m.GetGlb h cisId zoneId glbId = (glb, some e))
    (hchk : (checkCisGlbDeleted H d m e glb (h ++ [Call.GetGlb cisId zoneId glbId])).1 = true) :
    (resourceCISGlbDelete H d m h).ret = Ret.nil ∧
    (resourceCISGlbDelete H d m h).d = { d with Id := "" } ∧
    ∃ ext, (resourceCISGlbDelete H d m h).calls = h ++ ext ∧
      ∀ c ∈ ext, c.isDeleteGlb = false := by
  obtain ⟨ext, hext, hw⟩ :=
    checkCisGlbDeleted_ext H d m e glb (h ++ [Call.GetGlb cisId zoneId glbId])
  rcases hc : checkCisGlbDeleted H d m e glb (h ++ [Call.GetGlb cisId zoneId glbId])
    with ⟨b, h2⟩
  rw [hc] at hchk hext
  simp only at hchk hext
  subst hchk
  refine ⟨?_, ?_, Call.GetGlb cisId zoneId glbId :: ext, ?_, ?_⟩
  · simp [resourceCISGlbDelete, hapi, hdec, hget, hc]
  · simp [resourceCISGlbDelete, hapi, hdec, hget, hc, ResourceData.SetId]
  · simp [resourceCISGlbDelete, hapi, hdec, hget, hc, hext]
  · intro c hcm
    rcases List.mem_cons.1 hcm with rfl | hcm
    · rfl
    · exact (Call.not_write c (hw c hcm)).2

/-- C2 at a concrete input: the preliminary `GetGlb` answers "Object not found". -/
theorem delete_absent_skips_remote_delete_witness :
    (resourceCISGlbDelete specHelpers boundData notFoundSession []).ret = Ret.nil ∧
    (resourceCISGlbDelete specHelpers boundData notFoundSession []).d =
      { boundData with Id := "" } ∧
    ∃ ext, (resourceCISGlbDelete specHelpers boundData notFoundSession []).calls = [] ++ ext ∧
      ∀ c ∈ ext, c.isDeleteGlb = false :=
  delete_absent_skips_remote_delete specHelpers boundData notFoundSession [] "g1" "z1" "c1"
    none none ⟨"Object not found"⟩ (by decide) (by decide) (by decide) (by decide)

/-! ## Update without a change -/

/-- C3: when none of the eight tracked fields has changed, `resourceCISGlbUpdate`
returns exactly what `resourceCISGlbRead` returns on the same field store (same
return value, same field store afterwards, same calls), and none of the calls it
issues is the remote `UpdateGlb`. The history is arbitrary, so this covers a second
Update run after a first one: started from the history any first Update left, it
issues no remote update either. The id need not decode for this. -/
theorem update_unchanged_is_read (H : Helpers) (d : ResourceData) (m : ClientSession)
    (h : List Call) (hsame : trackedChange d = false) :
    resourceCISGlbUpdate H d m h = resourceCISGlbRead H d m h ∧
    (∃ ext, (resourceCISGlbUpdate H d m h).calls = h ++ ext ∧
      ∀ c ∈ ext, c.isUpdateGlb = false) ∧
    ∀ d0 : ResourceData,
      ∃ ext, (resourceCISGlbUpdate H d m (resourceCISGlbUpdate H d0 m h).calls).calls =
          (resourceCISGlbUpdate H d0 m h).calls ++ ext ∧
        ∀ c ∈ ext, c.isUpdateGlb = false := by
  have key : ∀ h0 : List Call, resourceCISGlbUpdate H d m h0 = resourceCISGlbRead H d m h0 :=
    fun h0 => update_unchanged_is_read_aux H d m h0 hsame
  have noUpd : ∀ h0 : List Call, ∃ ext, (resourceCISGlbUpdate H d m h0).calls = h0 ++ ext ∧
      ∀ c ∈ ext, c.isUpdateGlb = false := by
    intro h0
    obtain ⟨ext, hext, hw, _⟩ := resourceCISGlbRead_calls H d m h0
    exact ⟨ext, by rw [key h0, hext], fun c hc => (Call.not_write c (hw c hc)).1⟩
  exact ⟨key h, noUpd h, fun d0 => noUpd _⟩

/-- C3 at a concrete input: a bound field store with no pending change. -/
theorem update_unchanged_is_read_witness :
    resourceCISGlbUpdate specHelpers boundData okSession [] =
      resourceCISGlbRead specHelpers boundData okSession [] ∧
    (∃ ext, (resourceCISGlbUpdate specHelpers boundData okSession []).calls = [] ++ ext ∧
      ∀ c ∈ ext, c.isUpdateGlb = false) ∧
    ∀ d0 : ResourceData,
      ∃ ext, (resourceCISGlbUpdate specHelpers boundData okSession
          (resourceCISGlbUpdate specHelpers d0 okSession []).calls).calls =
          (resourceCISGlbUpdate specHelpers d0 okSession []).calls ++ ext ∧
        ∀ c ∈ ext, c.isUpdateGlb = false :=
  update_unchanged_is_read specHelpers boundData okSession [] (by decide)

/-! ## Failures of the remote write -/

/-- C4: when the session is available, the domain id decodes and the remote
`CreateGlb` returns an error, `resourceCISGlbCreate` returns that error, leaves the
field store as it was (the id is not set) and issues no call after the
`CreateGlb`. -/
theorem create_failure_surfaces_error (H : Helpers) (d : ResourceData) (m : ClientSession)
    (h : List Call) (zoneId rest : String) (glb : Option Glb) (e : GoError)
    (hapi : m.CisAPI h = none)
    (hdom : H.convertTftoCisTwoVar d.domain_id = (zoneId, rest, none))
    (hcreate : m.CreateGlb h d.cis_id zoneId (createBody H d) = (glb, some e)) :
    (resourceCISGlbCreate H d m h).ret = Ret.err e ∧
    (resourceCISGlbCreate H d m h).d = d ∧
    (resourceCISGlbCreate H d m h).calls =
      h ++ [Call.CreateGlb d.cis_id zoneId (createBody H d)] := by
  simp [resourceCISGlbCreate, hapi, hdom, hcreate]

/-- C4 at a concrete input: `CreateGlb` fails on a fresh field store. -/
theorem create_failure_surfaces_error_witness :
    (resourceCISGlbCreate specHelpers newData createFailSession []).ret =
      Ret.err ⟨"create failed"⟩ ∧
    (resourceCISGlbCreate specHelpers newData createFailSession []).d = newData ∧
    (resourceCISGlbCreate specHelpers newData createFailSession []).calls =
      [] ++ [Call.CreateGlb newData.cis_id "z1" (createBody specHelpers newData)] :=
  create_failure_surfaces_error specHelpers newData createFailSession [] "z1" "c1" none
    ⟨"create failed"⟩ (by decide) (by decide) (by decide)

/-- C5: when the session is available, the preliminary `GetGlb` returns a non-nil
object without error and the remote `DeleteGlb` then returns an error,
`resourceCISGlbDelete` returns that error and leaves the field store, the id
included, as it was. -/
theorem delete_failure_keeps_id (H : Helpers) (d : ResourceData) (m : ClientSession)
    (h : List Call) (glbId zoneId cisId : String) (oe : Option GoError) (glbObj : Glb)
    (e : GoError)
    (hapi : m.CisAPI h = none)
    (hdec : H.convertTfToCisThreeVar d.Id = (glbId, zoneId, cisId, oe))
    (hget : m.GetGlb h cisId zoneId glbId = (some glbObj, none))
    (hdel : m.DeleteGlb (h ++ [Call.GetGlb cisId zoneId glbId]) cisId zoneId glbId = some e) :
    (resourceCISGlbDelete H d m h).ret = Ret.err e ∧
    (resourceCISGlbDelete H d m h).d = d ∧
    (resourceCISGlbDelete H d m h).d.Id = d.Id := by
  simp [resourceCISGlbDelete, hapi, hdec, hget, hdel, deepEqualEmptyGlb, reflectDeepEqual]

/-- C5 at a concrete input: the load balancer exists and `DeleteGlb` fails. -/
theorem delete_failure_keeps_id_witness :
    (resourceCISGlbDelete specHelpers boundData deleteFailSession []).ret =
      Ret.err ⟨"delete failed"⟩ ∧
    (resourceCISGlbDelete specHelpers boundData deleteFailSession []).d = boundData ∧
    (resourceCISGlbDelete specHelpers boundData deleteFailSession []).d.Id = boundData.Id :=
  delete_failure_keeps_id specHelpers boundData deleteFailSession [] "g1" "z1" "c1" none
    sampleGlb ⟨"delete failed"⟩ (by decide) (by decide) (by decide) (by decide)

/-! ## Errors without a not-found text -/

/-- C6, as stated, fails: the error text "connection reset" contains none of the three
not-found texts, yet with a parent instance that no longer exists
`checkCisGlbDeleted` answers true and `resourceCISGlbRead` returns nil with the id
cleared instead of returning the error. -/
theorem transient_text_counterexample :
    stringsContains "connection reset" "Object not found" = false ∧
    stringsContains "connection reset" "status code: 404" = false ∧
    stringsContains "connection reset" "Invalid zone identifier" = false ∧
    parentGoneSession.GetGlb [] "c1" "z1" "g1" = (none, some ⟨"connection reset"⟩) ∧
    parentGoneSession.rcInstanceExists [Call.GetGlb "c1" "z1" "g1"] "c1" "ibm_cis" =
      (false, none) ∧
    (checkCisGlbDeleted specHelpers boundData parentGoneSession ⟨"connection reset"⟩ none
      [Call.GetGlb "c1" "z1" "g1"]).1 = true ∧
    (resourceCISGlbRead specHelpers boundData parentGoneSession []).ret = Ret.nil ∧
    (resourceCISGlbRead specHelpers boundData parentGoneSession []).ret ≠
      Ret.err ⟨"connection reset"⟩ ∧
    (resourceCISGlbRead specHelpers boundData parentGoneSession []).d.Id = "" ∧
    (resourceCISGlbRead specHelpers boundData parentGoneSession []).d.Id ≠ boundData.Id := by
  decide

/-- C6, amended: for an error whose text contains none of "Object not found",
"status code: 404" and "Invalid zone identifier", `checkCisGlbDeleted` answers true
exactly when the existence check of the parent instance succeeds and reports that
the parent does not exist. When that check fails or reports that the parent
exists, `resourceCISGlbRead` returns the original error and leaves the field store,
the id included, unchanged. When that check reports the parent as gone,
`resourceCISGlbRead` returns nil and the field store afterwards is the one before
with the id set to the empty string. In both cases the calls issued are the
`GetGlb` followed by the existence check. -/
theorem transient_unless_parent_gone (H : Helpers) (d : ResourceData) (m : ClientSession)
    (h : List Call) (glbId zoneId cisId : String) (glb : Option Glb) (e : GoError)
    (h1 : stringsContains e.Error "Object not found" = false)
    (h2 : stringsContains e.Error "status code: 404" = false)
    (h3 : stringsContains e.Error "Invalid zone identifier" = false)
    (hapi : m.CisAPI h = none)
    (hdec : H.convertTfToCisThreeVar d.Id = (glbId, zoneId, cisId, none))
    (hget : m.GetGlb h cisId zoneId glbId = (glb, some e)) :
    (∀ (g0 : Option Glb) (h0 : List Call),
      (checkCisGlbDeleted H d m e g0 h0).1 = true ↔
        m.rcInstanceExists h0 cisId "ibm_cis" = (false, none)) ∧
    (m.rcInstanceExists (h ++ [Call.GetGlb cisId zoneId glbId]) cisId "ibm_cis" ≠ (false, none) →
      (resourceCISGlbRead H d m h).ret = Ret.err e ∧ (resourceCISGlbRead H d m h).d = d) ∧
    (m.rcInstanceExists (h ++ [Call.GetGlb cisId zoneId glbId]) cisId "ibm_cis" = (false, none) →
      (resourceCISGlbRead H d m h).ret = Ret.nil ∧
      (resourceCISGlbRead H d m h).d = { d with Id := "" }) ∧
    (resourceCISGlbRead H d m h).calls =
      h ++ [Call.GetGlb cisId zoneId glbId, Call.rcInstanceExists cisId "ibm_cis"] := by
  have hnf : notFoundText e = false := by simp [notFoundText, h1, h2, h3]
  have hchk : ∀ (g0 : Option Glb) (h0 : List Call),
      (checkCisGlbDeleted H d m e g0 h0).1 = true ↔
        m.rcInstanceExists h0 cisId "ibm_cis" = (false, none) := by
    intro g0 h0
    unfold checkCisGlbDeleted
    rcases hm : m.rcInstanceExists h0 cisId "ibm_cis" with ⟨ex, oe⟩
    cases oe <;> cases ex <;> simp [hnf, hdec, hm]
  have hcalls : (checkCisGlbDeleted H d m e glb (h ++ [Call.GetGlb cisId zoneId glbId])).2 =
      h ++ [Call.GetGlb cisId zoneId glbId, Call.rcInstanceExists cisId "ibm_cis"] := by
    unfold checkCisGlbDeleted
    rcases hm : m.rcInstanceExists (h ++ [Call.GetGlb cisId zoneId glbId]) cisId "ibm_cis"
      with ⟨ex, oe⟩
    cases oe <;> cases ex <;> simp [hnf, hdec, hm]
  rcases hc : checkCisGlbDeleted H d m e glb (h ++ [Call.GetGlb cisId zoneId glbId])
    with ⟨b, h4⟩
  rw [hc] at hcalls
  simp only at hcalls
  have hb := hchk glb (h ++ [Call.GetGlb cisId zoneId glbId])
  rw [hc] at hb
  simp only at hb
  refine ⟨hchk, fun hne => ?_, fun hgone => ?_, ?_⟩
  · have hfalse : b = false := by
      cases b
      · rfl
      · exact absurd (hb.1 rfl) hne
    subst hfalse
    simp [resourceCISGlbRead, hapi, hdec, hget, hc]
  · have htrue : b = true := hb.2 hgone
    subst htrue
    simp [resourceCISGlbRead, hapi, hdec, hget, hc, ResourceData.SetId]
  · cases b <;> simp [resourceCISGlbRead, hapi, hdec, hget, hc, hcalls]

/-- C6, amended, at concrete inputs: "connection reset" while the parent instance
exists (the error is returned and the field store kept), and "connection reset"
while the parent instance is gone (nil is returned and the id cleared). -/
theorem transient_unless_parent_gone_witness :
    ((resourceCISGlbRead specHelpers boundData transientSession []).ret =
        Ret.err ⟨"connection reset"⟩ ∧
      (resourceCISGlbRead specHelpers boundData transientSession []).d = boundData) ∧
    ((resourceCISGlbRead specHelpers boundData parentGoneSession []).ret = Ret.nil ∧
      (resourceCISGlbRead specHelpers boundData parentGoneSession []).d =
        { boundData with Id := "" }) ∧
    (resourceCISGlbRead specHelpers boundData parentGoneSession []).calls =
      [] ++ [Call.GetGlb "c1" "z1" "g1", Call.rcInstanceExists "c1" "ibm_cis"] :=
  ⟨(transient_unless_parent_gone specHelpers boundData transientSession [] "g1" "z1" "c1" none
      ⟨"connection reset"⟩ (by decide) (by decide) (by decide) (by decide) (by decide)
      (by decide)).2.1 (by decide),
   (transient_unless_parent_gone specHelpers boundData parentGoneSession [] "g1" "z1" "c1" none
      ⟨"connection reset"⟩ (by decide) (by decide) (by decide) (by decide) (by decide)
      (by decide)).2.2.1 (by decide),
   (transient_unless_parent_gone specHelpers boundData parentGoneSession [] "g1" "z1" "c1" none
      ⟨"connection reset"⟩ (by decide) (by decide) (by decide) (by decide) (by decide)
      (by decide)).2.2.2⟩

/-! ## Errors with a not-found text -/

/-- C10: for an error whose text contains "Object not found", "status code: 404" or
"Invalid zone identifier", `checkCisGlbDeleted` answers true for every session, hence
whatever the existence check of the parent instance would report, and it issues no
call: the existence check is not consulted. -/
theorem not_found_text_is_deletion (H : Helpers) (d : ResourceData) (m : ClientSession)
    (e : GoError) (glb : Option Glb) (h : List Call)
    (htext : stringsContains e.Error "Object not found" = true ∨
      stringsContains e.Error "status code: 404" = true ∨
      stringsContains e.Error "Invalid zone identifier" = true) :
    checkCisGlbDeleted H d m e glb h = (true, h) := by
  have hnf : notFoundText e = true := by
    rcases htext with ht | ht | ht <;> simp [notFoundText, ht]
  simp [checkCisGlbDeleted, hnf]

/-- C10 at a concrete input: "Invalid zone identifier" while the parent instance
exists. -/
theorem not_found_text_is_deletion_witness :
    okSession.rcInstanceExists [] "c1" "ibm_cis" = (true, none) ∧
    checkCisGlbDeleted specHelpers boundData okSession
      ⟨"400 Bad Request: Invalid zone identifier"⟩ none [] = (true, []) :=
  ⟨by decide, not_found_text_is_deletion specHelpers boundData okSession
    ⟨"400 Bad Request: Invalid zone identifier"⟩ none [] (by decide)⟩

/-! ## Create on success -/

/-- Setting the id does not touch the change tracking. -/
theorem trackedChange_SetId (d : ResourceData) (v : String) :
    trackedChange (d.SetId v) = trackedChange d := by
  simp [trackedChange, ResourceData.HasChange, ResourceData.SetId]

/-- With a changed tracked field, an available session and a decodable id, the first
call `resourceCISGlbUpdate` issues is the remote `UpdateGlb`. -/
theorem resourceCISGlbUpdate_calls_changed (H : Helpers) (d : ResourceData)
    (m : ClientSession) (h : List Call) (glbId zoneId cisId : String)
    (hchg : trackedChange d = true) (hapi : m.CisAPI h = none)
    (hdec : H.convertTfToCisThreeVar d.Id = (glbId, zoneId, cisId, none)) :
    ∃ ext, (resourceCISGlbUpdate H d m h).calls =
      h ++ Call.UpdateGlb cisId zoneId glbId (updateBody H d) :: ext := by
  rcases hupd : m.UpdateGlb h cisId zoneId glbId (updateBody H d) with ⟨g, ue⟩
  cases ue with
  | some err => exact ⟨[], by simp [resourceCISGlbUpdate, hapi, hdec, hchg, hupd]⟩
  | none =>
    obtain ⟨ext, hext, _⟩ := resourceCISGlbRead_calls H d m
      (h ++ [Call.UpdateGlb cisId zoneId glbId (updateBody H d)])
    exact ⟨ext, by simp [resourceCISGlbUpdate, hapi, hdec, hchg, hupd, hext]⟩

/-- C7, as stated, fails: on a fresh field store whose configured attributes count as
changed, a successful `resourceCISGlbCreate` issues `CreateGlb`, then `UpdateGlb`, and
only then the `GetGlb` of Read: two remote writes precede the population of the
observed state. -/
theorem create_then_update_counterexample :
    okSession.CreateGlb [] "c1" "z1" (createBody specHelpers newData) =
      (some sampleGlb, none) ∧
    (resourceCISGlbCreate specHelpers newData okSession []).ret = Ret.nil ∧
    (resourceCISGlbCreate specHelpers newData okSession []).calls =
      [Call.CreateGlb "c1" "z1" (createBody specHelpers newData),
       Call.UpdateGlb "c1" "z1" "g1" (updateBody specHelpers newData),
       Call.GetGlb "c1" "z1" "g1"] ∧
    ((resourceCISGlbCreate specHelpers newData okSession []).calls.filter
      Call.isWrite).length = 2 := by
  decide

/-- C7, amended: when the session is available, the domain id decodes and the remote
`CreateGlb` returns an object with id `g` and no error, `resourceCISGlbCreate` sets the
id to `convertCisToTfThreeVar(g, zoneId, cisId)` and then runs
`resourceCISGlbUpdate` on that field store, returning whatever it returns. If no
tracked field has changed, no further remote write is issued and the next remote
call, if any, is the `GetGlb` of Read. If a tracked field has changed, the session
is still available and the new id decodes, the next remote call is `UpdateGlb` with
the decoded ids. -/
theorem create_success_sets_id_then_updates (H : Helpers) (d : ResourceData)
    (m : ClientSession) (h : List Call) (zoneId rest : String) (glbObj : Glb)
    (hapi : m.CisAPI h = none)
    (hdom : H.convertTftoCisTwoVar d.domain_id = (zoneId, rest, none))
    (hcreate : m.CreateGlb h d.cis_id zoneId (createBody H d) = (some glbObj, none)) :
    resourceCISGlbCreate H d m h =
      resourceCISGlbUpdate H (d.SetId (H.convertCisToTfThreeVar glbObj.Id zoneId d.cis_id)) m
        (h ++ [Call.CreateGlb d.cis_id zoneId (createBody H d)]) ∧
    (d.SetId (H.convertCisToTfThreeVar glbObj.Id zoneId d.cis_id)).Id =
      H.convertCisToTfThreeVar glbObj.Id zoneId d.cis_id ∧
    (trackedChange d = false →
      ∃ ext, (resourceCISGlbCreate H d m h).calls =
          h ++ Call.CreateGlb d.cis_id zoneId (createBody H d) :: ext ∧
        (∀ c ∈ ext, c.isWrite = false) ∧
        (ext = [] ∨ ∃ c z g tl, ext = Call.GetGlb c z g :: tl)) ∧
    (trackedChange d = true →
      ∀ g z c : String,
        m.CisAPI (h ++ [Call.CreateGlb d.cis_id zoneId (createBody H d)]) = none →
        H.convertTfToCisThreeVar (H.convertCisToTfThreeVar glbObj.Id zoneId d.cis_id) =
          (g, z, c, none) →
        ∃ ext, (resourceCISGlbCreate H d m h).calls =
          h ++ Call.CreateGlb d.cis_id zoneId (createBody H d) ::
            Call.UpdateGlb c z g
              (updateBody H (d.SetId (H.convertCisToTfThreeVar glbObj.Id zoneId d.cis_id))) ::
            ext) := by
  have hrun : resourceCISGlbCreate H d m h =
      resourceCISGlbUpdate H (d.SetId (H.convertCisToTfThreeVar glbObj.Id zoneId d.cis_id)) m
        (h ++ [Call.CreateGlb d.cis_id zoneId (createBody H d)]) := by
    simp [resourceCISGlbCreate, hapi, hdom, hcreate]
  refine ⟨hrun, rfl, fun hsame => ?_, fun hchg g z c hapi1 hdec1 => ?_⟩
  · have hsame1 : trackedChange
        (d.SetId (H.convertCisToTfThreeVar glbObj.Id zoneId d.cis_id)) = false := by
      rw [trackedChange_SetId]; exact hsame
    obtain ⟨ext, hext, hw, hhead⟩ := resourceCISGlbRead_calls H
      (d.SetId (H.convertCisToTfThreeVar glbObj.Id zoneId d.cis_id)) m
      (h ++ [Call.CreateGlb d.cis_id zoneId (createBody H d)])
    refine ⟨ext, ?_, hw, hhead⟩
    rw [hrun, (update_unchanged_is_read_aux H _ m _ hsame1), hext]
    simp
  · have hchg1 : trackedChange
        (d.SetId (H.convertCisToTfThreeVar glbObj.Id zoneId d.cis_id)) = true := by
      rw [trackedChange_SetId]; exact hchg
    obtain ⟨ext, hext⟩ := resourceCISGlbUpdate_calls_changed H
      (d.SetId (H.convertCisToTfThreeVar glbObj.Id zoneId d.cis_id)) m
      (h ++ [Call.CreateGlb d.cis_id zoneId (createBody H d)]) g z c hchg1 hapi1 hdec1
    exact ⟨ext, by rw [hrun, hext]; simp⟩

/-- C7, amended, at a concrete input: a fresh field store with changed attributes and
a session in which every call succeeds. -/
theorem create_success_sets_id_then_updates_witness :
    resourceCISGlbCreate specHelpers newData okSession [] =
      resourceCISGlbUpdate specHelpers (newData.SetId "g1:z1:c1") okSession
        [Call.CreateGlb "c1" "z1" (createBody specHelpers newData)] ∧
    ∃ ext, (resourceCISGlbCreate specHelpers newData okSession []).calls =
      [] ++ Call.CreateGlb "c1" "z1" (createBody specHelpers newData) ::
        Call.UpdateGlb "c1" "z1" "g1" (updateBody specHelpers (newData.SetId "g1:z1:c1")) ::
        ext :=
  ⟨(create_success_sets_id_then_updates specHelpers newData okSession [] "z1" "c1" sampleGlb
      (by decide) (by decide) (by decide)).1,
   (create_success_sets_id_then_updates specHelpers newData okSession [] "z1" "c1" sampleGlb
      (by decide) (by decide) (by decide)).2.2.2 (by decide) "g1" "z1" "c1" (by decide)
      (by decide)⟩

/-! ## Ids that do not decode -/

/-- With an available session and an id that does not decode, `resourceCISGlbRead` and
`resourceCISGlbUpdate` return the decoding error, issue no call and leave the field
store as it was. -/
theorem malformed_id_fatal_for_read_update (H : Helpers) (d : ResourceData)
    (m : ClientSession) (h : List Call) (glbId zoneId cisId : String) (e : GoError)
    (hapi : m.CisAPI h = none)
    (hdec : H.convertTfToCisThreeVar d.Id = (glbId, zoneId, cisId, some e)) :
    resourceCISGlbRead H d m h = ⟨Ret.err e, d, h⟩ ∧
    resourceCISGlbUpdate H d m h = ⟨Ret.err e, d, h⟩ := by
  simp [resourceCISGlbRead, resourceCISGlbUpdate, hapi, hdec]

/-- With an available session and an id that does not decode, `resourceCISGlbDelete`
drops the decoding error and issues the remote `GetGlb` with the components the
decoder returned. -/
theorem malformed_id_delete_issues_get (H : Helpers) (d : ResourceData)
    (m : ClientSession) (h : List Call) (glbId zoneId cisId : String) (e : GoError)
    (hapi : m.CisAPI h = none)
    (hdec : H.convertTfToCisThreeVar d.Id = (glbId, zoneId, cisId, some e)) :
    ∃ ext, (resourceCISGlbDelete H d m h).calls = h ++ Call.GetGlb cisId zoneId glbId :: ext := by
  rcases hget : m.GetGlb h cisId zoneId glbId with ⟨glb, ge⟩
  cases ge with
  | some err =>
    obtain ⟨ext, hext, _⟩ :=
      checkCisGlbDeleted_ext H d m err glb (h ++ [Call.GetGlb cisId zoneId glbId])
    rcases hc : checkCisGlbDeleted H d m err glb (h ++ [Call.GetGlb cisId zoneId glbId])
      with ⟨b, h2⟩
    rw [hc] at hext
    simp only at hext
    exact ⟨ext, by cases b <;> simp [resourceCISGlbDelete, hapi, hdec, hget, hc, hext]⟩
  | none =>
    cases glb with
    | none => exact ⟨[], by simp [resourceCISGlbDelete, hapi, hdec, hget]⟩
    | some g =>
      exact ⟨[Call.DeleteGlb cisId zoneId glbId], by
        cases hdel : m.DeleteGlb (h ++ [Call.GetGlb cisId zoneId glbId]) cisId zoneId glbId <;>
          simp [resourceCISGlbDelete, hapi, hdec, hget, hdel, deepEqualEmptyGlb, reflectDeepEqual]⟩

/-- C8, at the failing input: the id "abc" does not decode. `resourceCISGlbRead` and
`resourceCISGlbUpdate` return the decoding error without a remote call and without
touching the field store; `resourceCISGlbDelete` on the same input returns nil after
issuing `GetGlb` and `DeleteGlb` and clearing the id. -/
theorem delete_ignores_decode_error :
    (specHelpers.convertTfToCisThreeVar malformedData.Id).2.2.2 = some malformedIdentifier ∧
    resourceCISGlbRead specHelpers malformedData okSession [] =
      ⟨Ret.err malformedIdentifier, malformedData, []⟩ ∧
    resourceCISGlbUpdate specHelpers malformedData okSession [] =
      ⟨Ret.err malformedIdentifier, malformedData, []⟩ ∧
    resourceCISGlbDelete specHelpers malformedData okSession [] =
      ⟨Ret.nil, { malformedData with Id := "" },
        [Call.GetGlb "" "" "", Call.DeleteGlb "" "" ""]⟩ := by
  decide

/-! ## Observed state after a successful Read -/

/-- C9, as stated, fails: after a successful `resourceCISGlbRead`, `fallback_pool_id` and
`default_pool_ids` hold the pool ids of the response joined with the instance id,
not the values of the response, and `created_on` and `modified_on` are not written
at all. -/
theorem read_observed_counterexample :
    okSession.GetGlb [] "c1" "z1" "g1" = (some sampleGlb, none) ∧
    (resourceCISGlbRead specHelpers boundData okSession []).ret = Ret.nil ∧
    (resourceCISGlbRead specHelpers boundData okSession []).d.fallback_pool_id = "p1:c1" ∧
    (resourceCISGlbRead specHelpers boundData okSession []).d.fallback_pool_id ≠
      sampleGlb.FallbackPool ∧
    (resourceCISGlbRead specHelpers boundData okSession []).d.default_pool_ids = ["p1:c1"] ∧
    (resourceCISGlbRead specHelpers boundData okSession []).d.default_pool_ids ≠
      sampleGlb.DefaultPools ∧
    (resourceCISGlbRead specHelpers boundData okSession []).d.created_on = "" ∧
    (resourceCISGlbRead specHelpers boundData okSession []).d.created_on ≠
      sampleGlb.CreatedOn ∧
    (resourceCISGlbRead specHelpers boundData okSession []).d.modified_on = "" ∧
    (resourceCISGlbRead specHelpers boundData okSession []).d.modified_on ≠
      sampleGlb.ModifiedOn := by
  decide

/-- C9, amended: when the session is available, the id decodes and `GetGlb` returns an
object without error, `resourceCISGlbRead` returns nil and afterwards `name`,
`description`, `ttl`, `proxied`, `enabled` and `session_affinity` equal the values of the
response, `fallback_pool_id` is `convertCisToTfTwoVar` of the fallback pool of the
response and the instance id, and `default_pool_ids` is the set of
`convertCisToTfTwoVarSlice` of the default pools of the response and the instance
id. -/
theorem read_success_sets_observed (H : Helpers) (d : ResourceData) (m : ClientSession)
    (h : List Call) (glbId zoneId cisId : String) (glbObj : Glb)
    (hapi : m.CisAPI h = none)
    (hdec : H.convertTfToCisThreeVar d.Id = (glbId, zoneId, cisId, none))
    (hget : m.GetGlb h cisId zoneId glbId = (some glbObj, none)) :
    (resourceCISGlbRead H d m h).ret = Ret.nil ∧
    (resourceCISGlbRead H d m h).d.name = glbObj.Name ∧
    (resourceCISGlbRead H d m h).d.description = glbObj.Desc ∧
    (resourceCISGlbRead H d m h).d.ttl = glbObj.Ttl ∧
    (resourceCISGlbRead H d m h).d.proxied = glbObj.Proxied ∧
    (resourceCISGlbRead H d m h).d.enabled = glbObj.Enabled ∧
    (resourceCISGlbRead H d m h).d.session_affinity = glbObj.SessionAffinity ∧
    (resourceCISGlbRead H d m h).d.fallback_pool_id =
      H.convertCisToTfTwoVar glbObj.FallbackPool cisId ∧
    (resourceCISGlbRead H d m h).d.default_pool_ids =
      H.schemaSetList (H.convertCisToTfTwoVarSlice glbObj.DefaultPools cisId) := by
  simp [resourceCISGlbRead, hapi, hdec, hget, setObserved]

/-- C9, amended, at a concrete input: a bound field store and a session in which
`GetGlb` succeeds. -/
theorem read_success_sets_observed_witness :
    (resourceCISGlbRead specHelpers boundData okSession []).ret = Ret.nil ∧
    (resourceCISGlbRead specHelpers boundData okSession []).d.name = sampleGlb.Name ∧
    (resourceCISGlbRead specHelpers boundData okSession []).d.description = sampleGlb.Desc ∧
    (resourceCISGlbRead specHelpers boundData okSession []).d.ttl = sampleGlb.Ttl ∧
    (resourceCISGlbRead specHelpers boundData okSession []).d.proxied = sampleGlb.Proxied ∧
    (resourceCISGlbRead specHelpers boundData okSession []).d.enabled = sampleGlb.Enabled ∧
    (resourceCISGlbRead specHelpers boundData okSession []).d.session_affinity =
      sampleGlb.SessionAffinity ∧
    (resourceCISGlbRead specHelpers boundData okSession []).d.fallback_pool_id =
      specHelpers.convertCisToTfTwoVar sampleGlb.FallbackPool "c1" ∧
    (resourceCISGlbRead specHelpers boundData okSession []).d.default_pool_ids =
      specHelpers.schemaSetList
        (specHelpers.convertCisToTfTwoVarSlice sampleGlb.DefaultPools "c1") :=
  read_success_sets_observed specHelpers boundData okSession [] "g1" "z1" "c1" sampleGlb
    (by decide) (by decide) (by decide)

/-! ## The emptiness guard of Delete -/

/-- On two values of the same type `reflect.DeepEqual` compares contents: a `v1.Glb` is
deeply equal to itself, and so are two pointers to equal objects. -/
theorem reflectDeepEqual_same_type (a : Glb) :
    reflectDeepEqual (.structGlb a) (.structGlb a) = true ∧
    reflectDeepEqual (.ptrGlb (some a)) (.ptrGlb (some a)) = true := by
  simp [reflectDeepEqual]

/-- C11: when the session is available and the preliminary `GetGlb` of
`resourceCISGlbDelete` returns a non-nil object without error, whatever its fields
(all zero included), the guard `reflect.DeepEqual(emptyGlb, glbObj)` is false and the
calls issued are exactly the `GetGlb` followed by one `DeleteGlb` with the decoded
`(cisId, zoneId, glbId)`. If that `DeleteGlb` succeeds, the handler returns nil and the
field store afterwards is the one before with the id set to the empty string. -/
theorem delete_guard_never_suppresses (H : Helpers) (d : ResourceData) (m : ClientSession)
    (h : List Call) (glbId zoneId cisId : String) (oe : Option GoError) (glbObj : Glb)
    (hapi : m.CisAPI h = none)
    (hdec : H.convertTfToCisThreeVar d.Id = (glbId, zoneId, cisId, oe))
    (hget : m.GetGlb h cisId zoneId glbId = (some glbObj, none)) :
    deepEqualEmptyGlb zeroGlb glbObj = false ∧
    (resourceCISGlbDelete H d m h).calls =
      h ++ [Call.GetGlb cisId zoneId glbId, Call.DeleteGlb cisId zoneId glbId] ∧
    (m.DeleteGlb (h ++ [Call.GetGlb cisId zoneId glbId]) cisId zoneId glbId = none →
      (resourceCISGlbDelete H d m h).ret = Ret.nil ∧
      (resourceCISGlbDelete H d m h).d = { d with Id := "" }) := by
  have hguard : deepEqualEmptyGlb zeroGlb glbObj = false := rfl
  refine ⟨hguard, ?_, fun hdel => ?_⟩
  · cases hdel : m.DeleteGlb (h ++ [Call.GetGlb cisId zoneId glbId]) cisId zoneId glbId <;>
      simp [resourceCISGlbDelete, hapi, hdec, hget, hdel, hguard]
  · simp [resourceCISGlbDelete, hapi, hdec, hget, hdel, hguard, ResourceData.SetId]

/-- C11 at a concrete input: `GetGlb` returns an object all of whose fields are zero,
equal to the object `emptyGlb` points to; `DeleteGlb` is still issued. -/
theorem delete_guard_never_suppresses_witness :
    zeroGlbSession.GetGlb [] "c1" "z1" "g1" = (some zeroGlb, none) ∧
    (resourceCISGlbDelete specHelpers boundData zeroGlbSession []).calls =
      [Call.GetGlb "c1" "z1" "g1", Call.DeleteGlb "c1" "z1" "g1"] ∧
    (resourceCISGlbDelete specHelpers boundData zeroGlbSession []).ret = Ret.nil ∧
    (resourceCISGlbDelete specHelpers boundData zeroGlbSession []).d =
      { boundData with Id := "" } :=
  ⟨by decide,
   (delete_guard_never_suppresses specHelpers boundData zeroGlbSession [] "g1" "z1" "c1" none
      zeroGlb (by decide) (by decide) (by decide)).2.1,
   (delete_guard_never_suppresses specHelpers boundData zeroGlbSession [] "g1" "z1" "c1" none
      zeroGlb (by decide) (by decide) (by decide)).2.2 (by decide)⟩

end CisGlb
